import Mathlib

/-!
Shallow embedding of the LLMchatbot repository's retrieval core:
the RAG pipeline (`backend/rag/retrieval_pipeline.py`), the Neo4j access
layer (`backend/knowledge_graph/neo4j_client.py`), the LLM handler
(`backend/models/llm_handler.py`) and the canned-query registry
(`backend/knowledge_graph/cybersecurity_kg_loader.py`).

Python strings are modelled over `List Char`; the Python string methods
used by the code (`split`, `strip`, `lstrip`, `lower`, `upper`, `count`,
`isalnum`, `endswith`, `in`, `join`, `replace`, `title`, `capitalize`)
are embedded below with Python semantics on the ASCII inputs the code
manipulates.  Fallible I/O (Neo4j sessions, the Gemini backend) is
modelled by explicit oracles; a Python `AttributeError` raised by a call
to a method that a class does not define is modelled in an `Except`
monad.
-/

/-- The apostrophe character, used inside several of the program's
string literals. -/
def chQuote : Char := Char.ofNat 39

/-- The double-quote character. -/
def chDQuote : Char := Char.ofNat 34

/-- `isPrefixL a b` is true when the character list `a` is a prefix of `b`. -/
def isPrefixL : List Char → List Char → Bool
  | [], _ => true
  | _ :: _, [] => false
  | a :: as, b :: bs => a == b && isPrefixL as bs

/-- Index of the first occurrence of `sep` inside a character list
(Python `str.find`, restricted to found/not-found). -/
def subFindL (sep : List Char) : List Char → Option Nat
  | [] => if sep.isEmpty then some 0 else none
  | c :: rest =>
    if isPrefixL sep (c :: rest) then some 0
    else (subFindL sep rest).map (· + 1)

/-- Python `sub in l` on character lists. -/
def containsSubL (l sub : List Char) : Bool := (subFindL sub l).isSome

/-- Fuel-indexed worker for Python `str.split(sep)`.  Each step
consumes at least one character, so fuel equal to the input length
always suffices (the zero-fuel arm is unreachable then). -/
def splitSubFuel (sep : List Char) : Nat → List Char → List (List Char)
  | _, [] => [[]]
  | 0, l => [l]
  | fuel + 1, c :: rest =>
    if isPrefixL sep (c :: rest) then
      [] :: splitSubFuel sep fuel (List.drop (sep.length - 1) rest)
    else
      match splitSubFuel sep fuel rest with
      | [] => [[c]]
      | h :: t => (c :: h) :: t

/-- Python `str.split(sep)` on character lists: split on every
non-overlapping occurrence of `sep`, scanning left to right. -/
def splitSubL (sep : List Char) (l : List Char) : List (List Char) :=
  splitSubFuel sep l.length l

/-- The characters Python `str.split()` and `str.strip()` treat as
whitespace. -/
def pyWsChars : List Char := [' ', '\t', '\n', '\r', Char.ofNat 11, Char.ofNat 12]

/-- Python `str.split()` (no separator): split on runs of whitespace,
dropping empty fields. -/
def splitWsAux (acc : List Char) : List Char → List (List Char)
  | [] => if acc.isEmpty then [] else [acc.reverse]
  | c :: rest =>
    if pyWsChars.contains c then
      if acc.isEmpty then splitWsAux [] rest else acc.reverse :: splitWsAux [] rest
    else splitWsAux (c :: acc) rest

/-- Strip the characters of `cs` from both ends of a character list
(Python `str.strip(chars)`). -/
def stripL (cs : List Char) (l : List Char) : List Char :=
  ((l.dropWhile (cs.contains ·)).reverse.dropWhile (cs.contains ·)).reverse

/-- Strip the characters of `cs` from the left end only
(Python `str.lstrip(chars)`). -/
def lstripL (cs : List Char) (l : List Char) : List Char :=
  l.dropWhile (cs.contains ·)

/-- Python `sub in s` for strings. -/
def pyContains (s sub : String) : Bool := containsSubL s.data sub.data

/-- Python `str.lower()` (ASCII). -/
def pyLower (s : String) : String := String.mk (s.data.map Char.toLower)

/-- Python `str.upper()` (ASCII). -/
def pyUpper (s : String) : String := String.mk (s.data.map Char.toUpper)

/-- Python `str.split()` with no argument. -/
def pySplitWs (s : String) : List String := (splitWsAux [] s.data).map String.mk

/-- Python `str.split(sep)` for a non-empty separator. -/
def pySplitOn (s sep : String) : List String :=
  (splitSubL sep.data s.data).map String.mk

/-- Python `str.strip(chars)`. -/
def pyStrip (s : String) (cs : List Char) : String := String.mk (stripL cs s.data)

/-- Python `str.strip()` with no argument (whitespace). -/
def pyStripWs (s : String) : String := pyStrip s pyWsChars

/-- Python `str.lstrip(chars)`. -/
def pyLstrip (s : String) (cs : List Char) : String := String.mk (lstripL cs s.data)

/-- Python `str.endswith(suf)`. -/
def pyEndsWith (s suf : String) : Bool := isPrefixL suf.data.reverse s.data.reverse

/-- Python `str.count(c)` for a single character. -/
def pyCountChar (s : String) (c : Char) : Nat := s.data.count c

/-- Python `str.isalnum()` (ASCII): non-empty and every character
alphanumeric. -/
def pyIsAlnum (s : String) : Bool := !s.data.isEmpty && s.data.all Char.isAlphanum

/-- Python `len(s) `. -/
def pyLen (s : String) : Nat := s.data.length

/-- Python `sep.join(xs)`. -/
def pyJoin (sep : String) (xs : List String) : String := String.intercalate sep xs

/-- Python `str.capitalize()`: first character upper-cased, the rest
lower-cased. -/
def pyCapitalize (s : String) : String :=
  match s.data with
  | [] => ""
  | c :: rest => String.mk (Char.toUpper c :: rest.map Char.toLower)

/-- Python `str.replace(old, new)` for a non-empty `old`. -/
def pyReplace (s old new : String) : String :=
  String.intercalate new (pySplitOn s old)

/-- Helper for Python `str.title()`: the flag records whether the
previous character was a letter. -/
def pyTitleAux : Bool → List Char → List Char
  | _, [] => []
  | prevAlpha, c :: rest =>
    if c.isAlpha then
      (if prevAlpha then Char.toLower c else Char.toUpper c) :: pyTitleAux true rest
    else c :: pyTitleAux false rest

/-- Python `str.title()` (ASCII). -/
def pyTitle (s : String) : String := String.mk (pyTitleAux false s.data)

/-- Python values as they occur in Neo4j result records: strings,
integers, booleans, null, arrays, and maps (from Cypher map
projections). -/
inductive Val where
  | vStr (s : String)
  | vInt (n : Int)
  | vBool (b : Bool)
  | vNull
  | vList (xs : List Val)
  | vDict (fields : List (String × Val))

mutual

/-- Structural equality of values (Python `==` on these shapes). -/
def valBeq : Val → Val → Bool
  | .vStr a, .vStr b => a == b
  | .vInt a, .vInt b => a == b
  | .vBool a, .vBool b => a == b
  | .vNull, .vNull => true
  | .vList xs, .vList ys => valListBeq xs ys
  | .vDict xs, .vDict ys => valDictBeq xs ys
  | _, _ => false

/-- Element-wise equality of value lists. -/
def valListBeq : List Val → List Val → Bool
  | [], [] => true
  | x :: xs, y :: ys => valBeq x y && valListBeq xs ys
  | _, _ => false

/-- Pair-wise equality of dict entry lists. -/
def valDictBeq : List (String × Val) → List (String × Val) → Bool
  | [], [] => true
  | (k1, v1) :: xs, (k2, v2) :: ys => k1 == k2 && valBeq v1 v2 && valDictBeq xs ys
  | _, _ => false

end

/-- Worker for `dedupVals`, carrying the values already emitted. -/
def dedupValsAux (seen : List Val) : List Val → List Val
  | [] => []
  | x :: rest =>
    if seen.any (fun y => valBeq y x) then dedupValsAux seen rest
    else x :: dedupValsAux (seen ++ [x]) rest

/-- First-occurrence deduplication of a value list.  This models the
pipeline's `list(set(entities_for_graph))`: the iteration order of a
Python `set` is unspecified, so the embedding fixes the
first-occurrence order; the claims proved below depend only on
membership and emptiness, which every set order realises. -/
def dedupVals (l : List Val) : List Val := dedupValsAux [] l

/-- Python truthiness of a `Val` (`if value:`). -/
def Val.truthy : Val → Bool
  | .vStr s => s != ""
  | .vInt n => n != 0
  | .vBool b => b
  | .vNull => false
  | .vList xs => !xs.isEmpty
  | .vDict kv => !kv.isEmpty

/-- Is the value a Python `str` (`isinstance(value, str)`)? -/
def Val.isStr : Val → Bool
  | .vStr _ => true
  | _ => false

/-- A row-oriented Neo4j record: an ordered field-name/value mapping,
as returned by `record.data()` in `Neo4jClient.execute_query`. -/
abbrev Record := List (String × Val)

/-- Python `record.get(key)` on a record. -/
def recGet (r : Record) (k : String) : Option Val :=
  (r.find? (fun p => p.1 == k)).map (·.2)

/-! ## Entity Extractor (`RAGPipeline._extract_potential_users`,
`RAGPipeline._extract_potential_computers`,
`RAGPipeline._is_cybersecurity_query`) -/

/-- The punctuation characters stripped from each word:
`word.strip(",.;:!?()[]{}\"'")` in the source. -/
def stripPunctChars : List Char :=
  [',', '.', ';', ':', '!', '?', '(', ')', '[', ']', '\x7b', '\x7d', chDQuote, chQuote]

/-- `word.strip(",.;:!?()[]{}\"'")`. -/
def cleanWord (w : String) : String := pyStrip w stripPunctChars

/-- The fixed placeholder principal substituted when no user-like token
is found (`"HilaryOlivia226@TestCompany.Local"` in the source). -/
def defaultDemoUser : String := "HilaryOlivia226@TestCompany.Local"

/-- The fixed placeholder host substituted when no computer-like token
is found (`"DC01.TESTCOMPANY.LOCAL"` in the source). -/
def defaultDemoComputer : String := "DC01.TESTCOMPANY.LOCAL"

/-- `RAGPipeline._extract_potential_users`: a cleaned word containing
`@` or ending (case-insensitively) in `.local` is a user candidate; if
none is found the fixed demo user is substituted. -/
def extract_potential_users (text : String) : List String :=
  let words := pySplitWs text
  let potential_users := (words.map cleanWord).filter
    (fun c => pyContains c "@" || pyEndsWith (pyLower c) ".local")
  if potential_users.isEmpty then [defaultDemoUser] else potential_users

/-- `RAGPipeline._extract_potential_computers`: a cleaned word that is
fully upper-case, alphanumeric and at most 4 characters, or that has at
least two dots and contains one of the known domain suffixes, is a
computer candidate (a word matching both tests is appended twice, as in
the source); if none is found the fixed demo computer is substituted. -/
def extract_potential_computers (text : String) : List String :=
  let words := pySplitWs text
  let potential_computers := words.flatMap (fun w =>
    let c := cleanWord w
    (if pyUpper c == c && pyLen c ≤ 4 && pyIsAlnum c then [c] else []) ++
    (if pyCountChar c '.' ≥ 2 &&
        ([".local", ".com", ".net", ".org"].any (fun d => pyContains (pyLower c) d))
     then [c] else []))
  if potential_computers.isEmpty then [defaultDemoComputer] else potential_computers

/-- The fixed keyword list of `RAGPipeline._is_cybersecurity_query`. -/
def cybersecurity_keywords : List String :=
  ["attack", "path", "vulnerability", "cyber", "security", "network",
   "rdp", "access", "admin", "domain", "BloodHound", "kerberos",
   "user", "computer", "group", "password", "hack", "breach", "permission",
   "exploit", "active directory", "ad", "windows", "session", "threat",
   "privilege", "escalation", "lateral movement"]

/-- `RAGPipeline._is_cybersecurity_query`: true when any keyword occurs
(case-insensitively) as a substring of the query. -/
def is_cybersecurity_query (query : String) : Bool :=
  let query_lower := pyLower query
  cybersecurity_keywords.any (fun k => pyContains query_lower (pyLower k))

/-! ## Graph Access Layer -/

/-- The graph operations the pipeline can request from the Neo4j
client.  `runCannedQuery` is modelled from the spec: the spec's
Analytical plan executes a named canned query from the registry of
`get_common_cybersecurity_queries`; the pipeline source never performs
such a call, and the constructor exists so that claims about the
Analytical path are statable. -/
inductive GraphOp where
  | findRdpAccess (username : String)
  | findUserGroupMemberships (username : String)
  | findAttackPaths (targetNode : String)
  | findHighValueTargets
  | findDomainAdmins
  | findKerberoastableAccounts
  | keywordSearch (query : String)
  | semanticSearch (query : String)
  | runCannedQuery (name : String)
deriving DecidableEq

/-- A graph-store oracle: the rows each operation returns.  This
abstracts the Neo4j database state together with the driver; the
degraded empty-result behavior of `execute_query` on failure is one
particular oracle. -/
abbrev GraphOracle := GraphOp → List Record

/-- The method names defined by the `Neo4jClient` class
(`backend/knowledge_graph/neo4j_client.py`).  Python attribute lookup
on a client instance succeeds exactly for these names. -/
def neo4jClientMethodNames : List String :=
  ["__init__", "close", "test_connection", "execute_query",
   "semantic_search", "_extract_keywords", "keyword_search",
   "get_visualization_subgraph", "find_rdp_access", "find_attack_paths",
   "find_high_value_targets", "find_user_group_memberships",
   "find_domain_admins", "find_kerberoastable_accounts",
   "create_cybersecurity_schema"]

/-- The canned analytical query registry
(`CybersecurityKGLoader.get_common_cybersecurity_queries`): pairs of
query name and Cypher text.  The Cypher bodies are kept as opaque text
(they are only ever printed by `run.py`); the names are the data the
claims consult. -/
def common_cybersecurity_queries : List (String × String) :=
  [("Top Attack Types by Financial Loss",
    "MATCH (a:AttackType)<-[:USED_ATTACK]-(i:Incident) " ++
    "WITH a.name AS attackType, sum(i.financial_loss) AS totalLoss " ++
    "RETURN attackType, totalLoss ORDER BY totalLoss DESC LIMIT 10"),
   ("Most Targeted Industries",
    "MATCH (i:Industry)<-[:TARGETED]-(incident:Incident) " ++
    "WITH i.name AS industry, count(incident) AS incidents " ++
    "RETURN industry, incidents ORDER BY incidents DESC"),
   ("Most Common Vulnerabilities by Country",
    "MATCH (c:Country)<-[:OCCURRED_IN]-(i:Incident)-[:EXPLOITED]->(v:Vulnerability) " ++
    "WITH c.name AS country, v.name AS vulnerability, count(*) AS frequency " ++
    "ORDER BY country, frequency DESC " ++
    "RETURN country, collect(\x7bvulnerability: vulnerability, frequency: frequency\x7d)[0..3] AS topVulnerabilities"),
   ("Most Effective Defense Mechanisms",
    "MATCH (d:Defense)<-[:DEFENDED_WITH]-(i:Incident) " ++
    "WITH d.name AS defense, avg(i.resolution_time) AS avgResolutionTime " ++
    "RETURN defense, avgResolutionTime ORDER BY avgResolutionTime ASC LIMIT 5"),
   ("Attack Trends Over Time",
    "MATCH (y:Year)<-[:HAPPENED_IN]-(i:Incident)-[:USED_ATTACK]->(a:AttackType) " ++
    "WITH y.value AS year, a.name AS attackType, count(*) AS attacks " ++
    "ORDER BY year, attacks DESC " ++
    "RETURN year, collect(\x7battackType: attackType, count: attacks\x7d)[0..3] AS topAttacks ORDER BY year"),
   ("Countries Most Targeted by Nation-states",
    "MATCH (c:Country)<-[:OCCURRED_IN]-(i:Incident)-[:ORIGINATED_FROM]->" ++
    "(s:AttackSource \x7bname: " ++ chQuote.toString ++ "Nation-state" ++ chQuote.toString ++ "\x7d) " ++
    "WITH c.name AS country, count(i) AS incidents " ++
    "RETURN country, incidents ORDER BY incidents DESC LIMIT 10")]

/-! ## `Neo4jClient.keyword_search`: generated Cypher text and row
semantics -/

/-- The `search_terms` fragment of `Neo4jClient.keyword_search`: the
query is split on whitespace, terms longer than 3 characters are
interpolated directly into the Cypher text via an f-string, joined
with `" OR "`. -/
def keyword_search_terms (query : String) : String :=
  pyJoin " OR "
    (((pySplitWs query).filter (fun term => pyLen term > 3)).map
      (fun term =>
        "node.name CONTAINS " ++ chQuote.toString ++ term ++ chQuote.toString ++
        " OR node.description CONTAINS " ++ chQuote.toString ++ term ++ chQuote.toString))

/-- The full Cypher text built by `Neo4jClient.keyword_search` (the
f-string at lines 183-201 of `neo4j_client.py`), whitespace included.
Both the per-term fragments and the raw query string are interpolated
into the text; only `$limit` is passed as a bound parameter. -/
def keyword_search_cypher (query : String) : String :=
  let search_terms := keyword_search_terms query
  let q := chQuote.toString
  "\n        MATCH (node)\n        WHERE " ++ search_terms ++
  "\n        WITH node, \n             CASE WHEN node.name CONTAINS " ++ q ++ query ++ q ++
  " THEN 3\n                  WHEN node.description CONTAINS " ++ q ++ query ++ q ++
  " THEN 2\n                  ELSE 1\n             END AS relevance" ++
  "\n        MATCH (node)-[r]-(related)\n        RETURN \n            node.name AS name," ++
  "\n            node.description AS description,\n            node.type AS type," ++
  "\n            labels(node) AS labels,\n            relevance AS score," ++
  "\n            related.name AS related_name,\n            related.description AS related_description" ++
  "\n        LIMIT $limit\n        "

/-- A property-graph node as `keyword_search` sees it: optional `name`,
`description` and `type` properties and a label set (a missing property
reads as Cypher `null`). -/
structure StoreNode where
  name : Option String
  description : Option String
  nodeType : Option String
  labels : List String

/-- A directed relationship between two node indices of a store. -/
structure StoreRel where
  src : Nat
  dst : Nat

/-- A property-graph store: the engine's node return order is the list
order. -/
structure KGStore where
  nodes : List StoreNode
  rels : List StoreRel

/-- Cypher `x CONTAINS sub` where `x` may be `null` (`null` is not a
match). -/
def optContains (v : Option String) (sub : String) : Bool :=
  match v with
  | none => false
  | some s => pyContains s sub

/-- Neighbors of node `i` under the undirected pattern
`(node)-[r]-(related)`: targets of outgoing relationships, then sources
of incoming ones, in store order. -/
def neighborsOf (g : KGStore) (i : Nat) : List StoreNode :=
  ((g.rels.filter (fun e => e.src == i)).filterMap (fun e => g.nodes.get? e.dst)) ++
  ((g.rels.filter (fun e => e.dst == i)).filterMap (fun e => g.nodes.get? e.src))

/-- One result row of `keyword_search`. -/
structure KSRow where
  name : Option String
  description : Option String
  rowType : Option String
  labels : List String
  score : Nat
  relatedName : Option String
  relatedDescription : Option String

/-- The `CASE` relevance of a node in `keyword_search`: 3 when the
node's `name` contains the full query, 2 when its `description` does,
else 1. -/
def ksRelevance (query : String) (n : StoreNode) : Nat :=
  if optContains n.name query then 3
  else if optContains n.description query then 2
  else 1

/-- Row semantics of the Cypher text generated by
`Neo4jClient.keyword_search` over a store.  A query containing an
apostrophe breaks the interpolated string literals, and a query with no
term longer than 3 characters leaves the `WHERE` clause empty; both
yield a Cypher syntax error, which `execute_query` catches and degrades
to an empty result.  Matched nodes keep engine (store) order; each is
expanded against its neighbors; there is no `ORDER BY`, and `LIMIT
$limit` caps the row count. -/
def keyword_search_rows (g : KGStore) (query : String) (lim : Nat) : List KSRow :=
  if pyContains query chQuote.toString then []
  else
    let terms := (pySplitWs query).filter (fun term => pyLen term > 3)
    if terms.isEmpty then []
    else
      let matched := g.nodes.enum.filter (fun p =>
        terms.any (fun t => optContains p.2.name t || optContains p.2.description t))
      let rows := matched.flatMap (fun p =>
        (neighborsOf g p.1).map (fun m =>
          { name := p.2.name
            description := p.2.description
            rowType := p.2.nodeType
            labels := p.2.labels
            score := ksRelevance query p.2
            relatedName := m.name
            relatedDescription := m.description }))
      rows.take lim

/-! ## `Neo4jClient.get_visualization_subgraph`: formatting of the
query result into the visualization payload -/

/-- A raw Neo4j node object from the driver, as the formatting loop
inspects it: `hasattr(node, "id")`, `hasattr(node, "items")` and
`hasattr(node, "labels")` are modelled by `Option`. -/
structure RawNode where
  nid : Option Nat
  items : Option (List (String × Val))
  labels : Option (List String)

/-- A raw Neo4j relationship object: the outer `Option` on the
endpoint models `hasattr(rel, "start_node")` / `hasattr(rel,
"end_node")`, the inner one `hasattr(rel.start_node, "id")`. -/
structure RawRel where
  startId : Option (Option Nat)
  endId : Option (Option Nat)
  relType : Option String
  items : Option (List (String × Val))

/-- A formatted visualization node: the `id` is the request-local
`enumerate` index. -/
structure VisNode where
  id : Nat
  label : Val
  nodeType : String
  properties : List (String × Val)

/-- A formatted visualization edge: `source`/`target` are the
request-local node ids. -/
structure VisEdge where
  source : Nat
  target : Nat
  edgeType : String
  properties : List (String × Val)

/-- The visualization subgraph payload (`{"nodes": ..,
"relationships": ..}`). -/
structure VisGraph where
  nodes : List VisNode
  relationships : List VisEdge

/-- The `node_id_map` dict: internal Neo4j id of each raw node (when
present) mapped to its `enumerate` index.  A Python dict keeps the last
assignment for a repeated key; `List.lookup` returns the first hit, so
the association list is reversed. -/
def buildNodeIdMap (raw : List RawNode) : List (Nat × Nat) :=
  (raw.enum.filterMap (fun p => p.2.nid.map (fun nid => (nid, p.1)))).reverse

/-- Formatting of one raw node at `enumerate` index `idx`: properties
and labels default when the attribute is absent, the label falls back
to `Node-{idx}` when there is no `name` property, and the type is the
first label (or `"Unknown"`). -/
def formatVisNode (idx : Nat) (node : RawNode) : VisNode :=
  let properties := node.items.getD []
  let labels := node.labels.getD ["Unknown"]
  { id := idx
    label := (recGet properties "name").getD (Val.vStr ("Node-" ++ toString idx))
    nodeType := labels.headD "Unknown"
    properties := properties }

/-- Formatting of the raw relationships: a relationship is skipped
unless both endpoints exist, expose an id, and both ids are present in
`node_id_map`. -/
def formatVisEdges (idMap : List (Nat × Nat)) (rels : List RawRel) : List VisEdge :=
  rels.filterMap (fun rel =>
    match rel.startId, rel.endId with
    | some (some sid), some (some eid) =>
      match idMap.lookup sid, idMap.lookup eid with
      | some source, some target =>
        some { source := source
               target := target
               edgeType := rel.relType.getD "RELATED_TO"
               properties := rel.items.getD [] }
      | _, _ => none
    | some none, some _ => none
    | some _, some none => none
    | _, _ => none)

/-- The query result consumed by `get_visualization_subgraph`:
`result[0].get("nodes", [])` and `result[0].get("relationships", [])`,
or the empty-result early return. -/
abbrev SubgraphStore := List String → List (List RawNode × List RawRel)

/-- `Neo4jClient.get_visualization_subgraph`: empty or blank entity
lists short-circuit; otherwise the entity list is truncated to
`max_nodes`, the store is queried, and the first result row is
formatted.  The `try/except` wrapper that degrades a driver error to
the empty payload is one particular `store` behavior (the empty
response). -/
def get_visualization_subgraph (store : SubgraphStore) (entities : List String)
    (maxNodes : Nat := 15) : VisGraph :=
  if entities.isEmpty then ⟨[], []⟩
  else
    let filtered_entities := entities.filter (fun e => e != "")
    if filtered_entities.isEmpty then ⟨[], []⟩
    else
      let filtered_entities := filtered_entities.take maxNodes
      match store filtered_entities with
      | [] => ⟨[], []⟩
      | row :: _ =>
        { nodes := row.1.enum.map (fun p => formatVisNode p.1 p.2)
          relationships := formatVisEdges (buildNodeIdMap row.1) row.2 }

/-! ## Generation Adapter (`LLMHandler`) -/

mutual

/-- Python `repr()` of a value (as it appears inside `str()` of a list
or dict); strings are single-quoted. -/
def valPyRepr : Val → String
  | .vStr s => chQuote.toString ++ s ++ chQuote.toString
  | .vInt n => toString n
  | .vBool true => "True"
  | .vBool false => "False"
  | .vNull => "None"
  | .vList xs => "[" ++ valPyReprList xs ++ "]"
  | .vDict kv => "\x7b" ++ valPyReprDict kv ++ "\x7d"

/-- Comma-separated `repr()`s of the elements of a list. -/
def valPyReprList : List Val → String
  | [] => ""
  | [x] => valPyRepr x
  | x :: xs => valPyRepr x ++ ", " ++ valPyReprList xs

/-- Comma-separated `key: repr(value)` renderings of dict entries. -/
def valPyReprDict : List (String × Val) → String
  | [] => ""
  | [(k, v)] => chQuote.toString ++ k ++ chQuote.toString ++ ": " ++ valPyRepr v
  | (k, v) :: kvs =>
      chQuote.toString ++ k ++ chQuote.toString ++ ": " ++ valPyRepr v ++ ", " ++
      valPyReprDict kvs

end

/-- Python `str()` of a value, as f-string interpolation renders it. -/
def Val.pyStr : Val → String
  | .vStr s => s
  | v => valPyRepr v

/-- `value.get(key, default)` when the value is a Python dict; a
non-dict has no `get` attribute (the code never reaches that case on
well-formed records, modelled as the default). -/
def Val.dictGet (v : Val) (k : String) (dflt : Val) : Val :=
  match v with
  | .vDict kv => (recGet kv k).getD dflt
  | _ => dflt

/-- The argument of `', '.join(...)`: a Python list is joined
element-wise (`str()` of each element); a string is joined character
by character; other values would raise, modelled as no elements. -/
def joinArg : Val → List String
  | .vList xs => xs.map Val.pyStr
  | .vStr s => s.data.map (fun c => String.mk [c])
  | _ => []

/-- `LLMHandler._format_kg_context`: one section per record with name,
type labels, optional description and related-entity lines; empty
context yields the fixed sentinel sentence. -/
def format_kg_context (kg_context : List Record) : String :=
  if kg_context.isEmpty then "No relevant information found in the knowledge graph."
  else
    let context_sections := kg_context.enum.map (fun p =>
      let item := p.2
      let s := "Entity " ++ toString (p.1 + 1) ++ ": " ++
        ((recGet item "name").getD (Val.vStr "Unknown")).pyStr ++ "\n"
      let s := s ++ "Type: " ++
        pyJoin ", " (joinArg ((recGet item "labels").getD (Val.vList [Val.vStr "Unknown"]))) ++ "\n"
      let s := match recGet item "description" with
        | some d => if d.truthy then s ++ "Description: " ++ d.pyStr ++ "\n" else s
        | none => s
      let s := match recGet item "relationships" with
        | some r =>
          if r.truthy then
            let s := s ++ "Related entities:\n"
            match r with
            | .vList rels =>
              rels.foldl (fun acc rel =>
                let relType := pyTitle (pyReplace (rel.dictGet "type" (Val.vStr "related_to")).pyStr "_" " ")
                let line := "- " ++ relType ++ ": " ++ (rel.dictGet "name" (Val.vStr "Unknown")).pyStr
                let line := match rel with
                  | .vDict kv =>
                    match recGet kv "description" with
                    | some d => if d.truthy then line ++ " (" ++ d.pyStr ++ ")" else line
                    | none => line
                  | _ => line
                acc ++ line ++ "\n") s
            | _ => s
          else s
        | none => s
      s)
    pyJoin "\n" context_sections

/-- The fixed system prompt of `LLMHandler` (shared by the
cybersecurity and healthcare aliases). -/
def cybersecurity_system_prompt : String :=
  "\n        You are a specialized cybersecurity assistant that provides accurate, reliable, and contextual information.\n        Your knowledge is based on authoritative cybersecurity sources and a knowledge graph of network entities.\n        \n        Key guidelines:\n        1. Provide complete, accurate answers based on the knowledge graph context provided\n        2. Explain cybersecurity terms in plain language while maintaining accuracy\n        3. Include relevant relationships between entities when helpful (users, computers, domains, groups)\n        4. Focus on explaining attack paths, vulnerabilities, and security concepts\n        5. Structure complex answers clearly with bullet points or sections\n        \n        Use the provided knowledge graph context to enhance your answers with domain-specific knowledge.\n        "

/-- The structured-output directive for the cybersecurity domain,
containing the `ENTITIES:` delimiter convention. -/
def cyberStructureInstructions : String :=
  "\n            After providing your answer, list key cybersecurity entities mentioned in your response in this format:\n            \n            ENTITIES:\n            - Entity1\n            - Entity2\n            - Entity3\n            "

/-- The structured-output directive for the non-cybersecurity branch. -/
def medicalStructureInstructions : String :=
  "\n            After providing your answer, list key medical entities mentioned in your response in this format:\n            \n            ENTITIES:\n            - Entity1\n            - Entity2\n            - Entity3\n            "

/-- The serialized chat history: one `Role: content` line per turn,
role capitalized. -/
def formatChatHistory (chat_history : List (String × String)) : String :=
  chat_history.foldl (fun acc m => acc ++ pyCapitalize m.1 ++ ": " ++ m.2 ++ "\n") ""

/-- The full instruction string built by
`LLMHandler.generate_structured_answer`. -/
def build_structured_instruction (domain : String) (query : String)
    (kg_context : List Record) (chat_history : List (String × String)) : String :=
  let structure_instructions :=
    if domain == "cybersecurity" then cyberStructureInstructions
    else medicalStructureInstructions
  let history_text := formatChatHistory chat_history
  let instruction := cybersecurity_system_prompt ++ "\n\n" ++ structure_instructions ++ "\n\n"
  let instruction :=
    if history_text != "" then
      instruction ++ "Previous conversation:\n" ++ history_text ++ "\n\n"
    else instruction
  instruction ++ "Knowledge Graph Context:\n" ++ format_kg_context kg_context ++
    "\n\nUser Query: " ++ query ++ "\n\nYour helpful answer:"

/-- The pluggable text generator backend: a completion per prompt, or
an exception carrying its message. -/
abbrev Gen := String → Except String String

/-- The fixed response `get_llm_response` returns in mock mode. -/
def mockConnectionText : String := "LLM connection successful. This is a mock response."

/-- The apology stem shared by the handler's error strings
(`"I'm sorry, I encountered an error while generating your answer"`). -/
def apologyStem : String :=
  "I" ++ chQuote.toString ++ "m sorry, I encountered an error while generating your answer"

/-- `LLMHandler.get_llm_response`: in mock mode a fixed string;
otherwise the backend's completion, with a backend exception caught and
converted to an apology string that embeds the exception text.  (The
`hasattr(response, 'text')` fallback is subsumed: the backend contract
is one text completion per call or an error.) -/
def get_llm_response (useMock : Bool) (gen : Gen) (prompt : String) : String :=
  if useMock then mockConnectionText
  else
    match gen prompt with
    | .ok t => t
    | .error e => apologyStem ++ " with the Gemini model. Error: " ++ e

/-- The delimiter sentinel of the structured-output convention. -/
def entitiesDelimiter : String := "ENTITIES:"

/-- The parsing step of `LLMHandler.generate_structured_answer` (lines
244-259): when the delimiter occurs, the text is split on every
occurrence, `parts[0].strip()` becomes the answer and the non-blank
lines of `parts[1].strip()` — each stripped and then `lstrip("- ")`-ed
— become the entities; otherwise the whole text is the answer,
verbatim, with no entities. -/
def parse_structured_result (result : String) : String × List String :=
  if pyContains result entitiesDelimiter then
    let parts := pySplitOn result entitiesDelimiter
    let answer := pyStripWs (parts.headD "")
    let entities_text := pyStripWs (parts.getD 1 "")
    let entities :=
      ((pySplitOn entities_text "\n").filter (fun e => pyStripWs e != "")).map
        (fun e => pyLstrip (pyStripWs e) ['-', ' '])
    (answer, entities)
  else (result, [])

/-- A structured answer: `{"answer": .., "entities": ..}`. -/
structure SA where
  answer : String
  entities : List String
deriving DecidableEq

/-- `LLMHandler.generate_structured_answer`: build the instruction,
obtain the completion (mock mode calls the generator through the
LangChain chain, exceptions propagating to the outer handler; direct
mode goes through `get_llm_response`, which already converts
exceptions), parse the delimiter section, and convert any escaped
exception into the apology answer with no entities. -/
def generate_structured_answer (useMock : Bool) (gen : Gen) (query : String)
    (kg_context : List Record) (chat_history : List (String × String))
    (domain : String := "cybersecurity") : SA :=
  let instruction := build_structured_instruction domain query kg_context chat_history
  match (if useMock then gen instruction
         else .ok (get_llm_response false gen instruction)) with
  | .error e => { answer := apologyStem ++ ". Error: " ++ e, entities := [] }
  | .ok result =>
    let parsed := parse_structured_result result
    { answer := parsed.1, entities := parsed.2 }

/-! ## Query Router / pipeline (`RAGPipeline.process_query`,
`RAGPipeline._process_cybersecurity_query`) -/

/-- A Python exception escaping the pipeline. -/
inductive PyErr where
  | attributeError (attr : String)
deriving DecidableEq

/-- The response dict the pipeline returns: the cybersecurity path adds
a `domain` key. -/
structure ChatResponse where
  answer : String
  sources : List Record
  graphData : Option VisGraph
  domain : Option String

/-- Outcome of a pipeline run: the graph operations issued, in order,
and either the response or the exception that escaped. -/
structure PipeResult where
  trace : List GraphOp
  outcome : Except PyErr ChatResponse

/-- The pipeline's call
`self.neo4j_client.get_subgraph_for_entities(unique_entities[:5])`:
Python first looks the attribute up on the `Neo4jClient` instance.  The
class defines no method of that name (see
`neo4jClientMethodNames`), so the lookup raises `AttributeError`; the
`then` branch is unreachable. -/
def callGetSubgraphForEntities (_args : List Val) : Except PyErr (Option VisGraph) :=
  if neo4jClientMethodNames.contains "get_subgraph_for_entities" then
    Except.ok none
  else Except.error (PyErr.attributeError "get_subgraph_for_entities")

/-- The retrieval stage of
`RAGPipeline._process_cybersecurity_query` (lines 148-202): the
targeted lookups fire per extracted user and per trigger keyword,
results are concatenated, and the generic keyword search runs exactly
when no targeted rows were produced.  Returns the issued operations in
order together with the accumulated `cypher_results`. -/
def cyber_retrieval (db : GraphOracle) (query : String) :
    List GraphOp × List Record :=
  let potential_users := extract_potential_users query
  let userOps :=
    if potential_users.isEmpty then []
    else potential_users.flatMap
      (fun u => [GraphOp.findRdpAccess u, GraphOp.findUserGroupMemberships u])
  let userRows :=
    if potential_users.isEmpty then []
    else potential_users.flatMap
      (fun u => db (GraphOp.findRdpAccess u) ++ db (GraphOp.findUserGroupMemberships u))
  let ql := pyLower query
  let attackFires := pyContains ql "attack" && pyContains ql "path"
  let attackTarget :=
    let potential_targets := extract_potential_computers query
    if potential_targets.isEmpty then defaultDemoComputer
    else potential_targets.headD defaultDemoComputer
  let attackOps := if attackFires then [GraphOp.findAttackPaths attackTarget] else []
  let attackRows := if attackFires then db (GraphOp.findAttackPaths attackTarget) else []
  let hvFires := pyContains ql "high value" || pyContains ql "target"
  let hvOps := if hvFires then [GraphOp.findHighValueTargets] else []
  let hvRows := if hvFires then db GraphOp.findHighValueTargets else []
  let admFires := pyContains ql "admin" || pyContains ql "administrator"
  let admOps := if admFires then [GraphOp.findDomainAdmins] else []
  let admRows := if admFires then db GraphOp.findDomainAdmins else []
  let kerbFires := pyContains ql "kerberos" || pyContains ql "vulnerability"
  let kerbOps := if kerbFires then [GraphOp.findKerberoastableAccounts] else []
  let kerbRows := if kerbFires then db GraphOp.findKerberoastableAccounts else []
  let baseOps := userOps ++ attackOps ++ hvOps ++ admOps ++ kerbOps
  let baseRows := userRows ++ attackRows ++ hvRows ++ admRows ++ kerbRows
  (if baseRows.isEmpty then baseOps ++ [GraphOp.keywordSearch query] else baseOps,
   if baseRows.isEmpty then db (GraphOp.keywordSearch query) else baseRows)

/-- `RAGPipeline._process_cybersecurity_query`: retrieval, structured
generation, entity pooling (structured entities, extracted users and
computers, every string field of every result record except
`description`/`properties`), dedup, and — when the pool is non-empty —
the `get_subgraph_for_entities` call. -/
def process_cybersecurity_query (db : GraphOracle) (useMock : Bool) (gen : Gen)
    (query : String) (chat_history : List (String × String)) : PipeResult :=
  let r := cyber_retrieval db query
  let cypher_results := r.2
  let structured :=
    generate_structured_answer useMock gen query cypher_results chat_history "cybersecurity"
  let entities_for_graph : List Val :=
    (if structured.entities.isEmpty then [] else structured.entities.map Val.vStr) ++
    (extract_potential_users query).map Val.vStr ++
    (extract_potential_computers query).map Val.vStr ++
    cypher_results.flatMap (fun rec =>
      rec.filterMap (fun p =>
        if p.2.isStr && p.1 != "description" && p.1 != "properties" then some p.2
        else none))
  let unique_entities := dedupVals entities_for_graph
  { trace := r.1
    outcome :=
      match (if unique_entities.isEmpty then Except.ok none
             else callGetSubgraphForEntities (unique_entities.take 5)) with
      | .error e => .error e
      | .ok gd => .ok
          { answer := structured.answer
            sources := cypher_results
            graphData := gd
            domain := some "cybersecurity" } }

/-- `RAGPipeline.process_query`: the cybersecurity classifier routes to
the cybersecurity handler; otherwise the semantic-search path runs
(NER extraction modelled by an optional extractor returning the
already-confidence-filtered names, `None` when the model is absent). -/
def process_query (db : GraphOracle) (ner : Option (String → List String))
    (useMock : Bool) (gen : Gen) (query : String)
    (chat_history : List (String × String)) : PipeResult :=
  if is_cybersecurity_query query then
    process_cybersecurity_query db useMock gen query chat_history
  else
    let extracted_entities := match ner with | none => [] | some f => f query
    let kg_results := db (GraphOp.semanticSearch query)
    let structured :=
      generate_structured_answer useMock gen query kg_results chat_history "cybersecurity"
    let entities_for_graph : List Val :=
      (if structured.entities.isEmpty then [] else structured.entities.map Val.vStr) ++
      kg_results.filterMap (fun rec =>
        match recGet rec "name" with
        | some v => if v.truthy then some v else none
        | none => none) ++
      extracted_entities.map Val.vStr
    let unique_entities := dedupVals entities_for_graph
    { trace := [GraphOp.semanticSearch query]
      outcome :=
        match (if unique_entities.isEmpty then Except.ok none
               else callGetSubgraphForEntities (unique_entities.take 5)) with
        | .error e => .error e
        | .ok gd => .ok
            { answer := structured.answer
              sources := kg_results
              graphData := gd
              domain := none } }

/-! ## Predicates and fixtures used by the claim statements -/

/-- Does the text contain a principal-like token: a cleaned word with
`@` or ending, case-insensitively, in `.local`?  This is exactly the
candidate test of `_extract_potential_users`. -/
def hasPrincipalToken (text : String) : Bool :=
  ((pySplitWs text).map cleanWord).any
    (fun c => pyContains c "@" || pyEndsWith (pyLower c) ".local")

/-- The first host heuristic of `_extract_potential_computers`: fully
upper-case, at most 4 characters, alphanumeric. -/
def hostShortTest (c : String) : Bool :=
  pyUpper c == c && pyLen c ≤ 4 && pyIsAlnum c

/-- The second host heuristic of `_extract_potential_computers`: at
least two dots and a known domain suffix as substring. -/
def hostFqdnTest (c : String) : Bool :=
  pyCountChar c '.' ≥ 2 &&
  ([".local", ".com", ".net", ".org"].any (fun d => pyContains (pyLower c) d))

/-- Does the text contain a host-like token under either heuristic? -/
def hasHostToken (text : String) : Bool :=
  (pySplitWs text).any (fun w => hostShortTest (cleanWord w) || hostFqdnTest (cleanWord w))

/-- No targeted trigger of `_process_cybersecurity_query` fires on the
query: no principal-like token, and none of the four keyword trigger
conditions holds on the lowercased query. -/
def noTargetedTrigger (query : String) : Bool :=
  let ql := pyLower query
  !hasPrincipalToken query &&
  !(pyContains ql "attack" && pyContains ql "path") &&
  !(pyContains ql "high value" || pyContains ql "target") &&
  !(pyContains ql "admin" || pyContains ql "administrator") &&
  !(pyContains ql "kerberos" || pyContains ql "vulnerability")

/-- Modelled from the spec: the aggregate-intent phrases of the
Analytical class (spec section 4.2, item 1).  No code in the repository
implements this classification; the phrase list exists so the
Analytical claims can be stated. -/
def analyticalPhrases : List String := ["top", "most common", "statistics", "highest risk"]

/-- Modelled from the spec: the query matches an Analytical
aggregate-intent phrase (case-insensitively). -/
def matchesAnalyticalPhrase (query : String) : Bool :=
  analyticalPhrases.any (fun p => pyContains (pyLower query) p)

/-- Is the operation one the cybersecurity routing path can issue (a
targeted lookup or the generic keyword search)? -/
def isCyberRoutedOp : GraphOp → Bool
  | .semanticSearch _ => false
  | .runCannedQuery _ => false
  | _ => true

/-- The oracle of an empty (or failing) graph store: every operation
returns no rows. -/
def emptyOracle : GraphOracle := fun _ => []

/-- A generator backend that always succeeds with a fixed completion. -/
def genOk : Gen := fun _ => Except.ok "ok"

/-- A generator backend that throws on every call, with the given
exception text. -/
def genThrow (msg : String) : Gen := fun _ => Except.error msg

/-- The answer of a pipeline run that returned a response, `none` when
an exception escaped. -/
def respAnswer (r : PipeResult) : Option String :=
  match r.outcome with
  | .ok resp => some resp.answer
  | .error _ => none

/-- The exception that escaped a pipeline run, `none` when a response
was returned. -/
def respErr (r : PipeResult) : Option PyErr :=
  match r.outcome with
  | .ok _ => none
  | .error e => some e

/-- Is a list of scores sorted in descending order? -/
def isSortedDescNat : List Nat → Bool
  | [] => true
  | [_] => true
  | a :: b :: t => b ≤ a && isSortedDescNat (b :: t)

/-- The scenario input of the Analytical claim. -/
def c4Query : String := "Show me the top attack types by financial loss"

/-- A two-node store exercising `keyword_search` relevance: the first
node matches only a term, the second matches the full query, and one
relationship connects them. -/
def c6Store : KGStore :=
  { nodes :=
      [ { name := some "hello there", description := none, nodeType := none, labels := [] },
        { name := some "say hello world now", description := none, nodeType := none, labels := [] } ]
    rels := [⟨0, 1⟩] }

/-- A one-row subgraph store response with two raw nodes (Neo4j ids 10
and 20) and one relationship between them, used to witness the
subgraph invariant. -/
def c5Store : SubgraphStore := fun _ =>
  [([{ nid := some 10, items := some [("name", Val.vStr "A")], labels := some ["User"] },
     { nid := some 20, items := none, labels := none }],
    [{ startId := some (some 10), endId := some (some 20),
       relType := some "AdminTo", items := none }])]

/-- The text before the first occurrence of `sep` (the whole string
when `sep` does not occur). -/
def beforeFirst (sep s : String) : String :=
  match subFindL sep.data s.data with
  | none => s
  | some i => String.mk (s.data.take i)

/-- The text after the first occurrence of `sep` (empty when `sep`
does not occur). -/
def afterFirst (sep s : String) : String :=
  match subFindL sep.data s.data with
  | none => ""
  | some i => String.mk (s.data.drop (i + sep.data.length))

/-- Modelled from the spec (as amended by the counterexample): the
declarative parsing rule.  When the delimiter occurs, the answer is the
text before its first occurrence stripped of surrounding whitespace;
the entities come from the segment between the first and second
occurrences (to the end when it occurs once), stripped, split on
newlines, blank lines dropped, each line stripped and cleared of every
leading `-`/space character.  When the delimiter is absent the whole
text is the answer, verbatim, with no entities. -/
def parseSpecAmended (result : String) : String × List String :=
  if pyContains result entitiesDelimiter then
    let pre := beforeFirst entitiesDelimiter result
    let seg := beforeFirst entitiesDelimiter (afterFirst entitiesDelimiter result)
    let entities :=
      ((pySplitOn (pyStripWs seg) "\n").filter (fun e => pyStripWs e != "")).map
        (fun e => pyLstrip (pyStripWs e) ['-', ' '])
    (pyStripWs pre, entities)
  else (result, [])

/-- The first row `keyword_search` returns over `c6Store` for the
query `"hello world"`. -/
def c6Row1 : KSRow :=
  { name := some "hello there", description := none, rowType := none, labels := [],
    score := 1, relatedName := some "say hello world now", relatedDescription := none }

/-- The second row `keyword_search` returns over `c6Store` for the
query `"hello world"`. -/
def c6Row2 : KSRow :=
  { name := some "say hello world now", description := none, rowType := none, labels := [],
    score := 3, relatedName := some "hello there", relatedDescription := none }

/-! # Theorems -/

set_option maxRecDepth 40000

theorem extract_users_no_token (text : String) (h : hasPrincipalToken text = false) :
    extract_potential_users text = [defaultDemoUser] := by
  unfold hasPrincipalToken at h
  rw [List.any_eq_false] at h
  unfold extract_potential_users
  have hnil : ((pySplitWs text).map cleanWord).filter
      (fun c => pyContains c "@" || pyEndsWith (pyLower c) ".local") = [] := by
    rw [List.filter_eq_nil_iff]
    intro a ha
    simpa using h a ha
  simp [hnil]

theorem extract_computers_no_token (text : String) (h : hasHostToken text = false) :
    extract_potential_computers text = [defaultDemoComputer] := by
  unfold hasHostToken at h
  rw [List.any_eq_false] at h
  unfold extract_potential_computers
  have hnil : (pySplitWs text).flatMap (fun w =>
      let c := cleanWord w
      (if pyUpper c == c && pyLen c ≤ 4 && pyIsAlnum c then [c] else []) ++
      (if pyCountChar c '.' ≥ 2 &&
          ([".local", ".com", ".net", ".org"].any (fun d => pyContains (pyLower c) d))
       then [c] else [])) = [] := by
    rw [List.flatMap_eq_nil_iff]
    intro w hw
    have hw2 := h w hw
    rw [Bool.not_eq_true, Bool.or_eq_false_iff] at hw2
    obtain ⟨h1, h2⟩ := hw2
    unfold hostShortTest at h1
    unfold hostFqdnTest at h2
    simp only [h1, h2, Bool.false_eq_true, if_false, List.append_nil]
  simp only [hnil]
  rfl

/-- C9: a query with no principal-like token (no cleaned word
containing `@` or ending case-insensitively in `.local`) extracts
exactly the fixed placeholder principal, and a query with no host-like
token (under either host heuristic) extracts exactly the fixed
placeholder host.  (Idempotence across repeated calls is definitional:
both extractors are pure functions of the text.) -/
theorem C9_extraction_placeholders (text : String) :
    (hasPrincipalToken text = false → extract_potential_users text = [defaultDemoUser]) ∧
    (hasHostToken text = false → extract_potential_computers text = [defaultDemoComputer]) :=
  ⟨extract_users_no_token text, extract_computers_no_token text⟩

/-- C9 witness: the placeholder substitution on the concrete query
`"hello and world"`. -/
theorem C9_extraction_placeholders_witness :
    extract_potential_users "hello and world" = [defaultDemoUser] ∧
    extract_potential_computers "hello and world" = [defaultDemoComputer] :=
  ⟨(C9_extraction_placeholders "hello and world").1 (by decide),
   (C9_extraction_placeholders "hello and world").2 (by decide)⟩

/-- C1: FALSIFIED at a concrete input — the pipeline does raise.  On
the cybersecurity query `"network breach"` (no matter the graph state:
here the empty oracle; generator succeeding), the entity pool is
non-empty (the placeholder principal and host are always pooled), so
the pipeline calls `self.neo4j_client.get_subgraph_for_entities(...)`;
`Neo4jClient` defines no such method, and the `AttributeError` escapes
to the caller instead of a well-formed response. -/
theorem C1_pipeline_raises_attribute_error :
    respErr (process_query emptyOracle none false genOk "network breach" [])
      = some (PyErr.attributeError "get_subgraph_for_entities") := by decide

/-- C2: FALSIFIED at a concrete input — `Neo4jClient.keyword_search`
interpolates user-controlled text into the Cypher query text.  For the
user query `"kerberos attack"`, the generated Cypher text contains the
full user query (and each long term) as a substring: the per-term
fragments and the raw query are f-string-interpolated, not bound as
parameters. -/
theorem C2_keyword_search_interpolates_user_text :
    pyContains (keyword_search_cypher "kerberos attack") "kerberos attack" = true ∧
    pyContains (keyword_search_terms "kerberos attack") "kerberos" = true := by decide

theorem cyber_retrieval_no_trigger (db : GraphOracle) (q : String)
    (hT : noTargetedTrigger q = true)
    (hRdp : db (GraphOp.findRdpAccess defaultDemoUser) = [])
    (hGrp : db (GraphOp.findUserGroupMemberships defaultDemoUser) = []) :
    (cyber_retrieval db q).1 =
      [GraphOp.findRdpAccess defaultDemoUser, GraphOp.findUserGroupMemberships defaultDemoUser,
       GraphOp.keywordSearch q] := by
  unfold noTargetedTrigger at hT
  simp only [Bool.and_eq_true, Bool.not_eq_true', Bool.or_eq_false_iff,
    Bool.and_eq_false_iff] at hT
  obtain ⟨⟨⟨⟨h1, h2⟩, h3⟩, h4⟩, h5⟩ := hT
  have hu := extract_users_no_token q h1
  unfold cyber_retrieval
  simp only [hu, h3.1, h3.2, h4.1, h4.2, h5.1, h5.2, Bool.or_self, Bool.false_eq_true,
    if_false, List.isEmpty_cons, List.flatMap_cons, List.flatMap_nil, List.append_nil,
    hRdp, hGrp, List.nil_append, List.isEmpty_nil, if_true]
  rcases h2 with h2 | h2 <;>
    simp only [h2, Bool.false_and, Bool.and_false, Bool.false_eq_true, if_false,
      List.append_nil, List.nil_append, List.isEmpty_nil, if_true] <;>
    rfl

/-- C3: FALSIFIED at a concrete input.  The query `"network breach"`
matches no Analytical aggregate-intent phrase and no Targeted trigger,
yet the Router issues the RDP-access lookup (a Targeted graph
operation) — the placeholder principal makes the targeted user lookups
fire on every cybersecurity query. -/
theorem C3_counterexample_targeted_always_fires :
    matchesAnalyticalPhrase "network breach" = false ∧
    noTargetedTrigger "network breach" = true ∧
    GraphOp.findRdpAccess defaultDemoUser ∈ (cyber_retrieval emptyOracle "network breach").1 := by
  decide

/-- C3 (amended): for a query matching no Analytical phrase and no
Targeted trigger, the Router first issues the RDP-access and
group-membership lookups for the placeholder principal; when those
return no rows it issues the Generic keyword path exactly once, and no
other targeted operation and no canned analytical query is ever
issued — the trace is exactly those three operations. -/
theorem C3_fallback_ordering_amended (db : GraphOracle) (q : String)
    (_hA : matchesAnalyticalPhrase q = false)
    (hT : noTargetedTrigger q = true)
    (hRdp : db (GraphOp.findRdpAccess defaultDemoUser) = [])
    (hGrp : db (GraphOp.findUserGroupMemberships defaultDemoUser) = []) :
    (cyber_retrieval db q).1 =
      [GraphOp.findRdpAccess defaultDemoUser, GraphOp.findUserGroupMemberships defaultDemoUser,
       GraphOp.keywordSearch q] := by
  exact cyber_retrieval_no_trigger db q hT hRdp hGrp

/-- C3 witness: the amended fallback ordering at the concrete query
`"network breach"` over the empty store. -/
theorem C3_fallback_ordering_witness :
    (cyber_retrieval emptyOracle "network breach").1 =
      [GraphOp.findRdpAccess defaultDemoUser, GraphOp.findUserGroupMemberships defaultDemoUser,
       GraphOp.keywordSearch "network breach"] :=
  C3_fallback_ordering_amended emptyOracle "network breach" (by decide) (by decide) rfl rfl

/-- C4: FALSIFIED at the scenario input.  On `"Show me the top attack
types by financial loss"` the pipeline never executes the canned
analytical query (count 0, not 1): its trace is the placeholder
targeted lookups followed by the generic keyword search — no Analytical
classification exists in the code. -/
theorem C4_counterexample_no_analytical_path :
    ((cyber_retrieval emptyOracle c4Query).1.count
        (GraphOp.runCannedQuery "Top Attack Types by Financial Loss") = 0) ∧
    (cyber_retrieval emptyOracle c4Query).1 =
      [GraphOp.findRdpAccess defaultDemoUser, GraphOp.findUserGroupMemberships defaultDemoUser,
       GraphOp.keywordSearch c4Query] := by decide

/-- C4 (amended): the scenario input does match an Analytical phrase
and the registry does contain the canned query named `"Top Attack
Types by Financial Loss"`, but the Router has no Analytical path: for
any store with no rows for the placeholder lookups it issues exactly
the placeholder RDP-access and group-membership lookups and one
generic keyword search, and never the canned query. -/
theorem C4_analytical_scenario_amended (db : GraphOracle)
    (hRdp : db (GraphOp.findRdpAccess defaultDemoUser) = [])
    (hGrp : db (GraphOp.findUserGroupMemberships defaultDemoUser) = []) :
    matchesAnalyticalPhrase c4Query = true ∧
    "Top Attack Types by Financial Loss" ∈ common_cybersecurity_queries.map Prod.fst ∧
    (cyber_retrieval db c4Query).1 =
      [GraphOp.findRdpAccess defaultDemoUser, GraphOp.findUserGroupMemberships defaultDemoUser,
       GraphOp.keywordSearch c4Query] ∧
    GraphOp.runCannedQuery "Top Attack Types by Financial Loss" ∉ (cyber_retrieval db c4Query).1 := by
  have htrace := cyber_retrieval_no_trigger db c4Query (by decide) hRdp hGrp
  refine ⟨by decide, by decide, htrace, ?_⟩
  rw [htrace]
  decide

/-- C4 witness: the amended scenario over the empty store. -/
theorem C4_analytical_scenario_witness :
    matchesAnalyticalPhrase c4Query = true ∧
    "Top Attack Types by Financial Loss" ∈ common_cybersecurity_queries.map Prod.fst ∧
    (cyber_retrieval emptyOracle c4Query).1 =
      [GraphOp.findRdpAccess defaultDemoUser, GraphOp.findUserGroupMemberships defaultDemoUser,
       GraphOp.keywordSearch c4Query] ∧
    GraphOp.runCannedQuery "Top Attack Types by Financial Loss" ∉
      (cyber_retrieval emptyOracle c4Query).1 :=
  C4_analytical_scenario_amended emptyOracle rfl rfl

theorem process_cyber_trace (db : GraphOracle) (useMock : Bool) (gen : Gen)
    (q : String) (hist : List (String × String)) :
    (process_cybersecurity_query db useMock gen q hist).trace = (cyber_retrieval db q).1 := rfl

theorem process_query_trace_noncyber (db : GraphOracle)
    (ner : Option (String → List String)) (useMock : Bool) (gen : Gen)
    (q : String) (hist : List (String × String))
    (h : is_cybersecurity_query q = false) :
    (process_query db ner useMock gen q hist).trace = [GraphOp.semanticSearch q] := by
  unfold process_query
  rw [h]
  rfl

theorem process_query_trace_cyber (db : GraphOracle)
    (ner : Option (String → List String)) (useMock : Bool) (gen : Gen)
    (q : String) (hist : List (String × String))
    (h : is_cybersecurity_query q = true) :
    (process_query db ner useMock gen q hist).trace = (cyber_retrieval db q).1 := by
  unfold process_query
  rw [h]
  rfl

theorem routed_user_ops (us : List String) (e : Bool) (op : GraphOp)
    (h : op ∈ if e then [] else us.flatMap fun u =>
        [GraphOp.findRdpAccess u, GraphOp.findUserGroupMemberships u]) :
    isCyberRoutedOp op = true := by
  cases e
  · simp only [Bool.false_eq_true, if_false, List.mem_flatMap] at h
    obtain ⟨u, _, hm⟩ := h
    simp only [List.mem_cons, List.not_mem_nil, or_false] at hm
    rcases hm with hm | hm
    · subst hm; rfl
    · subst hm; rfl
  · simp at h

theorem routed_ite_singleton (b : Bool) (x op : GraphOp)
    (h : op ∈ if b then [x] else [])
    (hx : isCyberRoutedOp x = true) : isCyberRoutedOp op = true := by
  cases b
  · simp at h
  · simp only [if_true] at h
    rw [List.mem_singleton] at h
    subst h
    exact hx

theorem mem_ite_elim {α : Type} {P : Prop} {c : Bool} {l1 l2 : List α} {a : α}
    (h : a ∈ if c then l1 else l2) (h1 : a ∈ l1 → P) (h2 : a ∈ l2 → P) : P := by
  cases c
  · exact h2 (by simpa using h)
  · exact h1 (by simpa using h)

theorem mem_append_elim {α : Type} {P : Prop} {a : α} {l1 l2 : List α}
    (h : a ∈ l1 ++ l2) (h1 : a ∈ l1 → P) (h2 : a ∈ l2 → P) : P :=
  (List.mem_append.mp h).elim h1 h2

theorem routed_chain (l1 l2 l3 l4 l5 : List GraphOp) (op : GraphOp)
    (H1 : ∀ x ∈ l1, isCyberRoutedOp x = true)
    (H2 : ∀ x ∈ l2, isCyberRoutedOp x = true)
    (H3 : ∀ x ∈ l3, isCyberRoutedOp x = true)
    (H4 : ∀ x ∈ l4, isCyberRoutedOp x = true)
    (H5 : ∀ x ∈ l5, isCyberRoutedOp x = true)
    (h : op ∈ (((l1 ++ l2) ++ l3) ++ l4) ++ l5) : isCyberRoutedOp op = true := by
  simp only [List.mem_append] at h
  rcases h with ((((h | h) | h) | h) | h)
  · exact H1 op h
  · exact H2 op h
  · exact H3 op h
  · exact H4 op h
  · exact H5 op h

theorem cyber_retrieval_ops_routed (db : GraphOracle) (q : String) :
    ∀ op ∈ (cyber_retrieval db q).1, isCyberRoutedOp op = true := by
  intro op hop
  simp only [cyber_retrieval] at hop
  have hU := fun x hx => routed_user_ops (extract_potential_users q)
    (extract_potential_users q).isEmpty x hx
  refine mem_ite_elim hop (fun h => ?_) (fun h => ?_)
  · refine mem_append_elim h (fun h2 => ?_) (fun h2 => ?_)
    · refine routed_chain _ _ _ _ _ op hU ?_ ?_ ?_ ?_ h2 <;>
        exact fun x hx => routed_ite_singleton _ _ x hx rfl
    · rw [List.mem_singleton] at h2
      subst h2
      rfl
  · refine routed_chain _ _ _ _ _ op hU ?_ ?_ ?_ ?_ h <;>
      exact fun x hx => routed_ite_singleton _ _ x hx rfl

/-- C10: a query containing no cybersecurity keyword (case-insensitive
substring) issues exactly one semantic-search operation — no targeted
lookup, no keyword search, no canned analytical query; a query
containing a keyword is routed exclusively through the cybersecurity
path, whose trace contains only targeted lookups and the generic
keyword search, never the semantic-search path. -/
theorem C10_keyword_routing (db : GraphOracle) (ner : Option (String → List String))
    (useMock : Bool) (gen : Gen) (q : String) (hist : List (String × String)) :
    (is_cybersecurity_query q = false →
      (process_query db ner useMock gen q hist).trace = [GraphOp.semanticSearch q]) ∧
    (is_cybersecurity_query q = true →
      (process_query db ner useMock gen q hist).trace = (cyber_retrieval db q).1 ∧
      ∀ op ∈ (process_query db ner useMock gen q hist).trace, isCyberRoutedOp op = true) :=
  ⟨fun h => process_query_trace_noncyber db ner useMock gen q hist h,
   fun h =>
     ⟨process_query_trace_cyber db ner useMock gen q hist h,
      fun op hop => cyber_retrieval_ops_routed db q op
        (process_query_trace_cyber db ner useMock gen q hist h ▸ hop)⟩⟩

/-- C10 witness: the routing on the concrete non-cybersecurity query
`"hello there"` and the concrete cybersecurity query
`"network breach"`, over the empty store. -/
theorem C10_keyword_routing_witness :
    (process_query emptyOracle none false genOk "hello there" []).trace
      = [GraphOp.semanticSearch "hello there"] ∧
    (process_query emptyOracle none false genOk "network breach" []).trace
      = (cyber_retrieval emptyOracle "network breach").1 :=
  ⟨(C10_keyword_routing emptyOracle none false genOk "hello there" []).1 (by decide),
   ((C10_keyword_routing emptyOracle none false genOk "network breach" []).2 (by decide)).1⟩

theorem isPrefixL_self_append (l m : List Char) : isPrefixL l (l ++ m) = true := by
  induction l with
  | nil => rfl
  | cons c cs ih => simp [isPrefixL, ih]

/-- C7: FALSIFIED — the apology answer is not one fixed string.  Two
backends that throw on every call (with different exception texts)
yield different final answers on the same query and graph state: the
code embeds `str(e)` into the apology, so no single fixed apology
string equals the answer in all such runs.  (Both runs do return a
response: the adapter never raises.) -/
theorem C7_counterexample_apology_not_fixed :
    (respAnswer (process_query emptyOracle none false (genThrow "boom") "hello there" [])).isSome
      = true ∧
    respAnswer (process_query emptyOracle none false (genThrow "boom") "hello there" []) ≠
    respAnswer (process_query emptyOracle none false (genThrow "crash") "hello there" []) := by
  decide

/-- C7 (amended): when the generator backend throws on every call the
Generation Adapter never raises (it is a total function); the
structured answer's text always begins with the fixed apology stem
`"I'm sorry, I encountered an error while generating your answer"`,
followed by detail that varies with the exception text; and the
entities list is empty whenever the direct-mode apology text does not
contain the entities delimiter. -/
theorem C7_generator_failure_amended (useMock : Bool) (q : String)
    (ctx : List Record) (hist : List (String × String)) (domain e : String)
    (h : pyContains (apologyStem ++ " with the Gemini model. Error: " ++ e)
          entitiesDelimiter = false) :
    (generate_structured_answer useMock (genThrow e) q ctx hist domain).entities = [] ∧
    isPrefixL apologyStem.data
      (generate_structured_answer useMock (genThrow e) q ctx hist domain).answer.data
      = true := by
  cases useMock
  · unfold generate_structured_answer
    simp only [Bool.false_eq_true, if_false]
    have hllm : get_llm_response false (genThrow e)
        (build_structured_instruction domain q ctx hist)
        = apologyStem ++ " with the Gemini model. Error: " ++ e := rfl
    rw [hllm]
    unfold parse_structured_result
    rw [h]
    simp only [Bool.false_eq_true, if_false]
    refine ⟨by trivial, ?_⟩
    rw [String.data_append, String.data_append, List.append_assoc]
    exact isPrefixL_self_append apologyStem.data
      ((" with the Gemini model. Error: ").data ++ e.data)
  · unfold generate_structured_answer
    simp only [if_true]
    refine ⟨rfl, ?_⟩
    show isPrefixL apologyStem.data ((apologyStem ++ ". Error: " ++ e).data) = true
    rw [String.data_append, String.data_append, List.append_assoc]
    exact isPrefixL_self_append apologyStem.data ((". Error: ").data ++ e.data)

/-- C7 witness: the amended degraded-answer property at a concrete
throwing backend (`"boom"`), in direct (non-mock) mode. -/
theorem C7_generator_failure_witness :
    (generate_structured_answer false (genThrow "boom") "q" [] [] "cybersecurity").entities
      = [] ∧
    isPrefixL apologyStem.data
      (generate_structured_answer false (genThrow "boom") "q" [] [] "cybersecurity").answer.data
      = true :=
  C7_generator_failure_amended false "q" [] [] "cybersecurity" "boom" (by decide)

/-- C6: FALSIFIED at a concrete store — the generated Cypher has no
`ORDER BY`, so rows are not returned in descending relevance order.
On a two-node store where the first node scores 1 and the second (full
query match in `name`) scores 3, `keyword_search` returns the scores in
engine order `[1, 3]`, which is not descending. -/
theorem C6_counterexample_no_order_by :
    ((keyword_search_rows c6Store "hello world" 5).map KSRow.score = [1, 3]) ∧
    isSortedDescNat ((keyword_search_rows c6Store "hello world" 5).map KSRow.score)
      = false := by decide

/-- C6 (amended): every returned row carries the documented relevance
score — 3 for a full-query substring match in `name`, else 2 for a
full-query match in `description`, else 1 — and the row count is
capped at the configured limit; but the rows keep engine order (no
sorting by score is performed). -/
theorem C6_keyword_search_scores_amended (g : KGStore) (query : String) (lim : Nat) :
    (keyword_search_rows g query lim).length ≤ lim ∧
    ∀ row ∈ keyword_search_rows g query lim,
      row.score = if optContains row.name query then 3
                  else if optContains row.description query then 2 else 1 := by
  unfold keyword_search_rows
  split
  · exact ⟨Nat.zero_le lim, by intro row hrow; exact absurd hrow (List.not_mem_nil row)⟩
  · dsimp only
    split
    · exact ⟨Nat.zero_le lim, by intro row hrow; exact absurd hrow (List.not_mem_nil row)⟩
    · constructor
      · rw [List.length_take]
        exact min_le_left _ _
      · intro row hrow
        have hmem := (List.take_sublist lim _).mem hrow
        rw [List.mem_flatMap] at hmem
        obtain ⟨p, _, hr⟩ := hmem
        rw [List.mem_map] at hr
        obtain ⟨m, _, heq⟩ := hr
        subst heq
        rfl

theorem lookupNat_mem : ∀ {l : List (Nat × Nat)} {k v : Nat},
    List.lookup k l = some v → (k, v) ∈ l := by
  intro l
  induction l with
  | nil => intro k v h; simp [List.lookup] at h
  | cons p rest ih =>
    intro k v h
    rw [List.lookup] at h
    rcases hb : (k == p.1) with _ | _
    · rw [hb] at h
      exact List.mem_cons_of_mem p (ih h)
    · rw [hb] at h
      have hk : k = p.1 := eq_of_beq hb
      have hv : v = p.2 := by
        cases h
        rfl
      rw [hk, hv]
      exact List.mem_cons_self _ _

theorem idMap_snd_lt (raw : List RawNode) {nid idx : Nat}
    (h : (nid, idx) ∈ buildNodeIdMap raw) : idx < raw.length := by
  unfold buildNodeIdMap at h
  rw [List.mem_reverse] at h
  obtain ⟨p, hp, hf⟩ := List.mem_filterMap.mp h
  obtain ⟨i, node⟩ := p
  cases hnid : node.nid with
  | none => rw [hnid] at hf; simp at hf
  | some n =>
    rw [hnid] at hf
    simp only [Option.map_some] at hf
    have hidx : i = idx := congrArg Prod.snd (Option.some.inj hf)
    rw [List.enum_eq_zip_range] at hp
    have hi := (List.of_mem_zip hp).1
    rw [List.mem_range] at hi
    rw [← hidx]
    exact hi

theorem formatVisEdges_endpoints (idMap : List (Nat × Nat)) (rels : List RawRel) :
    ∀ e ∈ formatVisEdges idMap rels,
      (∃ s, List.lookup s idMap = some e.source) ∧
      (∃ t, List.lookup t idMap = some e.target) := by
  intro e he
  obtain ⟨rel, _, hf⟩ := List.mem_filterMap.mp he
  rcases h1 : rel.startId with _ | so <;> rw [h1] at hf
  · cases h2 : rel.endId <;> rw [h2] at hf <;> simp at hf
  · rcases h2 : rel.endId with _ | eo <;> rw [h2] at hf
    · cases so <;> simp at hf
    · rcases so with _ | sid
      · simp at hf
      · rcases eo with _ | eid
        · simp at hf
        · dsimp only at hf
          rcases h3 : List.lookup sid idMap with _ | src <;> rw [h3] at hf
          · simp at hf
          · rcases h4 : List.lookup eid idMap with _ | tgt <;> rw [h4] at hf
            · simp at hf
            · have he2 := Option.some.inj hf
              refine ⟨⟨sid, ?_⟩, ⟨eid, ?_⟩⟩
              · rw [h3, ← he2]
              · rw [h4, ← he2]

theorem visNodes_ids (raw : List RawNode) :
    (raw.enum.map (fun p => formatVisNode p.1 p.2)).map VisNode.id
      = List.range raw.length := by
  rw [List.map_map]
  have hcomp : (VisNode.id ∘ fun p : Nat × RawNode => formatVisNode p.1 p.2)
      = Prod.fst := by
    funext p
    rfl
  rw [hcomp, List.enum_map_fst]

/-- C5: for every entity-name list and every graph-store result, the
formatted visualization subgraph contains no edge whose source or
target id is missing from its own node set, and the node ids are
exactly the request-local `enumerate` indices `0..n-1` of the returned
node list. -/
theorem C5_subgraph_invariant (store : SubgraphStore) (entities : List String)
    (maxNodes : Nat) :
    (∀ e ∈ (get_visualization_subgraph store entities maxNodes).relationships,
        e.source ∈ (get_visualization_subgraph store entities maxNodes).nodes.map VisNode.id ∧
        e.target ∈ (get_visualization_subgraph store entities maxNodes).nodes.map VisNode.id) ∧
    (get_visualization_subgraph store entities maxNodes).nodes.map VisNode.id
      = List.range (get_visualization_subgraph store entities maxNodes).nodes.length := by
  unfold get_visualization_subgraph
  split
  · exact ⟨by intro e he; exact absurd he (List.not_mem_nil e), rfl⟩
  · dsimp only
    split
    · exact ⟨by intro e he; exact absurd he (List.not_mem_nil e), rfl⟩
    · split
      · exact ⟨by intro e he; exact absurd he (List.not_mem_nil e), rfl⟩
      · rename_i row rest _
        constructor
        · intro e he
          have hends := formatVisEdges_endpoints (buildNodeIdMap row.1) row.2 e he
          obtain ⟨⟨s, hs⟩, ⟨t, ht⟩⟩ := hends
          have hslt := idMap_snd_lt row.1 (lookupNat_mem hs)
          have htlt := idMap_snd_lt row.1 (lookupNat_mem ht)
          rw [visNodes_ids row.1]
          exact ⟨List.mem_range.mpr hslt, List.mem_range.mpr htlt⟩
        · rw [visNodes_ids row.1, List.length_map, List.enum_length]

theorem splitSubFuel_ne_nil (sep : List Char) (f : Nat) (l : List Char) :
    splitSubFuel sep f l ≠ [] := by
  match f, l with
  | _, [] => simp [splitSubFuel]
  | 0, c :: rest => simp [splitSubFuel]
  | fuel + 1, c :: rest =>
    rw [splitSubFuel]
    split
    · simp
    · split <;> simp

theorem splitSubFuel_congr (sep : List Char) :
    ∀ (f1 : Nat) (l : List Char) (f2 : Nat), l.length ≤ f1 → l.length ≤ f2 →
      splitSubFuel sep f1 l = splitSubFuel sep f2 l := by
  intro f1
  induction f1 with
  | zero =>
    intro l f2 h1 _
    have hl : l = [] := List.eq_nil_of_length_eq_zero (Nat.le_zero.mp h1)
    subst hl
    simp [splitSubFuel]
  | succ a ih =>
    intro l f2 h1 h2
    cases l with
    | nil => simp [splitSubFuel]
    | cons c rest =>
      cases f2 with
      | zero => simp at h2
      | succ b =>
        rw [splitSubFuel, splitSubFuel]
        have hr : rest.length ≤ a := by
          simp only [List.length_cons] at h1
          omega
        have hrb : rest.length ≤ b := by
          simp only [List.length_cons] at h2
          omega
        split
        · have hd : (List.drop (sep.length - 1) rest).length ≤ a :=
            le_trans (by rw [List.length_drop]; omega) hr
          have hdb : (List.drop (sep.length - 1) rest).length ≤ b :=
            le_trans (by rw [List.length_drop]; omega) hrb
          rw [ih (List.drop (sep.length - 1) rest) b hd hdb]
        · rw [ih rest b hr hrb]

theorem splitSubL_spec (sep : List Char) (hsep : sep ≠ []) :
    ∀ l : List Char,
      splitSubL sep l =
        match subFindL sep l with
        | none => [l]
        | some i => l.take i :: splitSubL sep (l.drop (i + sep.length)) := by
  have hspecF : ∀ l : List Char, ∀ f : Nat, l.length ≤ f →
      splitSubFuel sep f l =
        match subFindL sep l with
        | none => [l]
        | some i => l.take i :: splitSubL sep (l.drop (i + sep.length)) := by
    intro l
    induction l with
    | nil =>
      intro f _
      have : subFindL sep [] = none := by
        rw [subFindL]
        simp [List.isEmpty_iff, hsep]
      rw [this]
      cases f <;> simp [splitSubFuel]
    | cons c rest ih =>
      intro f hf
      cases f with
      | zero => simp at hf
      | succ a =>
        have hr : rest.length ≤ a := by
          simp only [List.length_cons] at hf
          omega
        rw [splitSubFuel]
        by_cases hp : isPrefixL sep (c :: rest) = true
        · rw [if_pos hp]
          have hfind : subFindL sep (c :: rest) = some 0 := by
            unfold subFindL
            rw [if_pos hp]
          rw [hfind]
          dsimp only
          obtain ⟨s0, stail, hseq⟩ := List.exists_cons_of_ne_nil hsep
          have hdrop : List.drop (0 + sep.length) (c :: rest)
              = List.drop (sep.length - 1) rest := by
            subst hseq
            simp [List.length_cons, List.drop_succ_cons]
          rw [hdrop]
          have : splitSubFuel sep a (List.drop (sep.length - 1) rest)
              = splitSubL sep (List.drop (sep.length - 1) rest) := by
            unfold splitSubL
            exact splitSubFuel_congr sep a _ _
              (le_trans (by rw [List.length_drop]; omega) hr) le_rfl
          rw [this]
          rfl
        · rw [if_neg hp]
          have hfind : subFindL sep (c :: rest)
              = (subFindL sep rest).map (· + 1) := by
            rw [subFindL]
            rw [if_neg hp]
          have hrw := ih a hr
          cases hfr : subFindL sep rest with
          | none =>
            rw [hfr] at hrw
            rw [hrw, hfind, hfr]
            rfl
          | some i =>
            rw [hfr] at hrw
            dsimp only at hrw
            rw [hrw, hfind, hfr]
            have hmap : Option.map (fun x => x + 1) (some i) = some (i + 1) := rfl
            rw [hmap]
            dsimp only [List.take_succ_cons]
            have hdrop : List.drop (i + 1 + sep.length) (c :: rest)
                = List.drop (i + sep.length) rest := by
              have hh : i + 1 + sep.length = (i + sep.length) + 1 := by omega
              rw [hh, List.drop_succ_cons]
            rw [hdrop]
  intro l
  exact hspecF l l.length le_rfl

theorem splitSubL_ne_nil (sep : List Char) (l : List Char) :
    splitSubL sep l ≠ [] := splitSubFuel_ne_nil sep l.length l

/-- C8: FALSIFIED at a concrete input.  For the response
`" Hi ENTITIES:\n- A"` the text before the delimiter is `" Hi "`, but
the parser strips it: the structured answer is `"Hi"`, so the answer is
not the text before the delimiter. -/
theorem C8_counterexample_answer_stripped :
    (parse_structured_result " Hi ENTITIES:\n- A").1 = "Hi" ∧
    (parse_structured_result " Hi ENTITIES:\n- A").1 ≠ " Hi " ∧
    (parse_structured_result " Hi ENTITIES:\n- A").2 = ["A"] := by decide

theorem parse_parts_head_getD (s : String) (h : pyContains s entitiesDelimiter = true) :
    (pySplitOn s entitiesDelimiter).headD "" = beforeFirst entitiesDelimiter s ∧
    (pySplitOn s entitiesDelimiter).getD 1 ""
      = beforeFirst entitiesDelimiter (afterFirst entitiesDelimiter s) := by
  have hsep : entitiesDelimiter.data ≠ [] := by decide
  have hcont : (subFindL entitiesDelimiter.data s.data).isSome = true := h
  obtain ⟨i, hfind⟩ := Option.isSome_iff_exists.mp hcont
  constructor
  · show ((splitSubL entitiesDelimiter.data s.data).map String.mk).headD "" = _
    rw [splitSubL_spec _ hsep, hfind]
    unfold beforeFirst
    rw [hfind]
    rfl
  · show ((splitSubL entitiesDelimiter.data s.data).map String.mk).getD 1 "" = _
    rw [splitSubL_spec _ hsep, hfind]
    dsimp only [List.map_cons]
    rw [List.getD_cons_succ]
    unfold afterFirst
    rw [hfind]
    unfold beforeFirst
    cases hfr : subFindL entitiesDelimiter.data
        (String.mk (s.data.drop (i + entitiesDelimiter.data.length))).data with
    | none =>
      have hfr2 : subFindL entitiesDelimiter.data
          (s.data.drop (i + entitiesDelimiter.data.length)) = none := hfr
      rw [splitSubL_spec _ hsep, hfr2]
      rfl
    | some j =>
      have hfr2 : subFindL entitiesDelimiter.data
          (s.data.drop (i + entitiesDelimiter.data.length)) = some j := hfr
      rw [splitSubL_spec _ hsep, hfr2]
      rfl

/-- C8 (amended): the parser agrees everywhere with the declarative
rule in which, when the delimiter occurs, the answer is the text before
the FIRST occurrence stripped of surrounding whitespace and the
entities come from the segment between the first and second occurrences
(to the end when unique), the non-blank lines each stripped and cleared
of every leading `-`/space character; when the delimiter is absent the
whole text is the answer, verbatim, with no entities. -/
theorem C8_parsing_amended (s : String) :
    parse_structured_result s = parseSpecAmended s := by
  unfold parse_structured_result parseSpecAmended
  by_cases h : pyContains s entitiesDelimiter = true
  · rw [if_pos h, if_pos h]
    dsimp only
    have hp := parse_parts_head_getD s h
    rw [hp.1, hp.2]
  · rw [if_neg h, if_neg h]

/-- C5 witness: the invariant applied to the concrete one-relationship
store, discharging the edge-membership hypothesis at the concrete
formatted edge. -/
theorem C5_subgraph_invariant_witness :
    ({ source := 0, target := 1, edgeType := "AdminTo", properties := [] } : VisEdge).source
      ∈ (get_visualization_subgraph c5Store ["A"] 15).nodes.map VisNode.id :=
  ((C5_subgraph_invariant c5Store ["A"] 15).1
    { source := 0, target := 1, edgeType := "AdminTo", properties := [] }
    (by
      rw [show (get_visualization_subgraph c5Store ["A"] 15).relationships
          = [{ source := 0, target := 1, edgeType := "AdminTo", properties := [] }] from rfl]
      exact List.mem_singleton.mpr rfl)).1

/-- C6 witness: the amended score property applied to the concrete
two-node store, discharging the row-membership hypothesis at the first
returned row. -/
theorem C6_keyword_search_scores_witness :
    (keyword_search_rows c6Store "hello world" 5).length ≤ 5 ∧
    c6Row1.score = (if optContains c6Row1.name "hello world" then 3
                    else if optContains c6Row1.description "hello world" then 2 else 1) :=
  ⟨(C6_keyword_search_scores_amended c6Store "hello world" 5).1,
   (C6_keyword_search_scores_amended c6Store "hello world" 5).2 c6Row1
    (by
      rw [show keyword_search_rows c6Store "hello world" 5 = [c6Row1, c6Row2] from rfl]
      exact List.mem_cons_self _ _)⟩
